import Mathlib

/-!
Shallow embedding of `funciones_creditos.py` (matriz-cobranza).

Dates: pandas `Timestamp`s are calendar dates compared by their serial value.
We model a date as a (year, month, day) triple together with its proleptic
Gregorian serial day number `Date.toDays`; comparisons (`dateLE`, `dateLT`)
are serial comparisons, exactly as pandas compares the underlying int64.
`Date.Valid` singles out the triples that denote real calendar dates; on
those the serial order agrees with lexicographic (year, month, day) order
(proved below).

Money: pandas floats are modelled as exact rationals `ℚ`; `np.round(x, 0)`
is round-half-to-even (`roundHalfEven`).

Missing values (NaN / NaT / pd.NA) are modelled as `Option`; a pandas
comparison whose operand is missing yields `false` (`optLEzero`, `optGT`,
`optGE`).
-/

/-- Function `isLeap y`: proleptic Gregorian leap-year rule. -/
def isLeap (y : Nat) : Bool :=
  y % 4 == 0 && (y % 100 != 0 || y % 400 == 0)

/-- Days in month `m` of year `y` (0 for a month outside 1..12). -/
def daysInMonth (y m : Nat) : Nat :=
  match m with
  | 1 => 31
  | 2 => if isLeap y then 29 else 28
  | 3 => 31
  | 4 => 30
  | 5 => 31
  | 6 => 30
  | 7 => 31
  | 8 => 31
  | 9 => 30
  | 10 => 31
  | 11 => 30
  | 12 => 31
  | _ => 0

/-- Days of year `y` that precede month `m` (the cumulative month-length table). -/
def daysBeforeMonth (y m : Nat) : Nat :=
  (match m with
   | 1 => 0
   | 2 => 31
   | 3 => 59
   | 4 => 90
   | 5 => 120
   | 6 => 151
   | 7 => 181
   | 8 => 212
   | 9 => 243
   | 10 => 273
   | 11 => 304
   | 12 => 334
   | _ => 365) +
  (if 3 ≤ m ∧ isLeap y = true then 1 else 0)

/-- Number of leap years strictly before year `y` (years `1..y-1`). -/
def leapsBefore (y : Nat) : Nat :=
  (y - 1) / 4 - (y - 1) / 100 + (y - 1) / 400

structure Date where
  year : Nat
  month : Nat
  day : Nat
deriving DecidableEq, Repr

/-- Serial day number of a date (proleptic Gregorian). -/
def Date.toDays (d : Date) : Nat :=
  365 * d.year + leapsBefore d.year + daysBeforeMonth d.year d.month + d.day

/-- A triple denotes a real calendar date. -/
def Date.Valid (d : Date) : Prop :=
  1 ≤ d.year ∧ 1 ≤ d.month ∧ d.month ≤ 12 ∧ 1 ≤ d.day ∧ d.day ≤ daysInMonth d.year d.month

instance (d : Date) : Decidable d.Valid := by
  unfold Date.Valid
  infer_instance

/-- pandas `a <= b` on Timestamps: comparison of serial values. -/
def dateLE (a b : Date) : Bool := decide (a.toDays ≤ b.toDays)

/-- pandas `a < b` on Timestamps. -/
def dateLT (a b : Date) : Bool := decide (a.toDays < b.toDays)

/-- Test `fecha == fecha + pd.offsets.MonthEnd(0)`: the date is the last day of its month. -/
def isMonthEnd (d : Date) : Bool := d.day == daysInMonth d.year d.month

/-- Value of `fecha.to_period('M').start_time`: first day of the month containing `d`. -/
def monthStart (d : Date) : Date := ⟨d.year, d.month, 1⟩

/-- Value of `(fecha.to_period('M') + 1).start_time`: first day of the month after `d`. -/
def nextMonthStart (d : Date) : Date :=
  if d.month = 12 then ⟨d.year + 1, 1, 1⟩ else ⟨d.year, d.month + 1, 1⟩

/-- One row of the `creditos` table (indexed by `id_credito`). -/
structure Credit where
  idCredito : Nat
  fechaApertura : Date
  fechaPrimerPago : Date
  plazo : Int
  cuotaMensual : ℚ
  saldoInicial : ℚ
  fechaCierre : Option Date

/-- One row of the `creditos_pagos` table. -/
structure Payment where
  idCredito : Nat
  fechaPago : Date
  montoPago : ℚ
  saldoPosterior : ℚ

/-- Embedding of `np.round(q, 0)`: round half to even. -/
def roundHalfEven (q : ℚ) : Int :=
  if 2 * (q - ⌊q⌋) < 1 then ⌊q⌋
  else if 2 * (q - ⌊q⌋) > 1 then ⌊q⌋ + 1
  else if ⌊q⌋ % 2 = 0 then ⌊q⌋ else ⌊q⌋ + 1

/-- The `1e-10` added before rounding in `atraso_pagos`. -/
def epsRound : ℚ := 1 / 10000000000

/-- pandas `x <= 0` where `x` may be NaN (then the comparison is `False`). -/
def optLEzero (x : Option Int) : Bool :=
  match x with
  | none => false
  | some v => decide (v ≤ 0)

/-- pandas `x > c` where `x` may be NaN. -/
def optGT (x : Option Int) (c : Int) : Bool :=
  match x with
  | none => false
  | some v => decide (v > c)

/-- pandas `x >= c` where `x` may be NaN. -/
def optGE (x : Option Int) (c : Int) : Bool :=
  match x with
  | none => false
  | some v => decide (v ≥ c)

/-- From `pagos_requeridos`, lines 22-39: the month-difference formula before clipping. -/
def mesesTranscurridos (c : Credit) (fecha : Date) : Int :=
  ((fecha.year : Int) - c.fechaPrimerPago.year) * 12 +
    ((fecha.month : Int) - c.fechaPrimerPago.month) -
    (if isMonthEnd fecha = false ∧ fecha.day < c.fechaPrimerPago.day then 1 else 0) +
    1

/-- Embedding of `pagos_requeridos(creditos, fecha)` for one credit: the month difference is
clipped to `[0, plazo]` (`Series.clip` = `min (max x lower) upper`) and the
result is masked to NaN (`None`) unless `fecha_apertura <= fecha`. -/
def pagosRequeridos (c : Credit) (fecha : Date) : Option Int :=
  if dateLE c.fechaApertura fecha then
    some (min (max (mesesTranscurridos c fecha) 0) c.plazo)
  else
    none

/-- Embedding of `monto_requerido(creditos, pagos_req)` for one credit: `cuota_mensual * pagos_req`
(NaN propagates). -/
def montoRequerido (c : Credit) (pagosReq : Option Int) : Option ℚ :=
  pagosReq.map (fun n => c.cuotaMensual * (n : ℚ))

/-- The payments of credit `c` recorded on or before `fecha`, in ledger order
(the rows of `creditos_pagos[creditos_pagos['fecha_pago'] <= fecha]` whose
`id_credito` groups to `c`). -/
def pagosFiltrados (c : Credit) (pagos : List Payment) (fecha : Date) : List Payment :=
  pagos.filter (fun p => p.idCredito == c.idCredito && dateLE p.fechaPago fecha)

/-- Embedding of `monto_pagado(creditos, creditos_pagos, fecha)` for one credit: sum of the
qualifying payments; after `reindex`, a credit with no qualifying payment is NaN,
and the final `.where((fecha < apertura) | notnull, 0)` keeps the NaN exactly when
`fecha < fecha_apertura`, otherwise replaces it with 0. -/
def montoPagado (c : Credit) (pagos : List Payment) (fecha : Date) : Option ℚ :=
  match pagosFiltrados c pagos fecha with
  | [] => if dateLT fecha c.fechaApertura then none else some 0
  | ps => some ((ps.map Payment.montoPago).sum)

/-- Embedding of `estatus(monto_req, monto_pag)` for one credit.  The code initialises the
series to NA and then assigns the three masks in order; a later mask overwrites
an earlier one, so the final value is decided by the last matching mask.  With a
NaN operand every mask is `False` and the NA survives. -/
def estatus (montoReq montoPag : Option ℚ) : Option String :=
  match montoReq, montoPag with
  | some req, some pag =>
    if pag > req then some "Adelantado"
    else if req * (98 / 100) ≤ pag ∧ pag ≤ req then some "Al Corriente"
    else if pag < req * (98 / 100) then some "Atrasado"
    else none
  | _, _ => none

/-- Embedding of `fecha_ultimo_pago(creditos, creditos_pagos, fecha)` for one credit:
`groupby('id_credito')['fecha_pago'].last()` takes the *positionally last* row of
the group (groups keep the original row order), NaN when the group is empty. -/
def fechaUltimoPago (c : Credit) (pagos : List Payment) (fecha : Date) : Option Date :=
  (pagosFiltrados c pagos fecha).getLast?.map Payment.fechaPago

/-- Embedding of `dias_sin_pagar(creditos, fecha_ult_pago, fecha)` for one credit:
`max(0, (fecha - ult_pago).days - 30)` when a last payment exists; otherwise
`(fecha - fecha_apertura).days` when the credit has opened, else NaN. -/
def diasSinPagar (c : Credit) (fechaUltPago : Option Date) (fecha : Date) : Option Int :=
  match fechaUltPago with
  | some lp => some (max ((fecha.toDays : Int) - lp.toDays - 30) 0)
  | none =>
    if dateLE c.fechaApertura fecha then
      some ((fecha.toDays : Int) - c.fechaApertura.toDays)
    else
      none

/-- Embedding of `atraso_pagos(creditos, pagos_req, monto_pag)` for one credit:
`pagos_req - np.round(monto_pag / cuota_mensual + 1e-10, 0)` (NaN propagates). -/
def atrasoPagos (c : Credit) (pagosReq : Option Int) (montoPag : Option ℚ) : Option Int :=
  match pagosReq, montoPag with
  | some n, some pag => some (n - roundHalfEven (pag / c.cuotaMensual + epsRound))
  | _, _ => none

/-- Embedding of `logica_paridad(row, fecha)`: the two-branch cascade, lines 211-250.
Missing operands make every numeric comparison `False` (pandas NaN semantics).
The comparison `row['estatus'] != "Atrasado"` is only ever reached with
`atraso_pagos <= 0` true, hence (in the pipeline) with a defined `estatus`;
for a missing `estatus` we return the `!=`-true branch, matching
`np.nan != "Atrasado"`. -/
def logicaParidad (fechaApertura : Date) (est : Option String)
    (dias atraso : Option Int) (fecha : Date) : String :=
  if dateLT fecha fechaApertura then "Al Corriente"
  else if optLEzero atraso then
    if est ≠ some "Atrasado" then "Al Corriente"
    else if optGT dias 360 then "PAR 360"
    else if optGT dias 270 then "PAR 270"
    else if optGT dias 180 then "PAR 180"
    else if optGT dias 150 then "PAR 150"
    else if optGT dias 120 then "PAR 120"
    else if optGT dias 90 then "PAR 90"
    else if optGT dias 60 then "PAR 60"
    else if optGT dias 30 then "PAR 30"
    else "PAR 1"
  else
    if optGT dias 360 || optGE atraso 13 then "PAR 360"
    else if optGT dias 270 || optGE atraso 10 then "PAR 270"
    else if optGT dias 180 || optGE atraso 7 then "PAR 180"
    else if optGT dias 150 || optGE atraso 6 then "PAR 150"
    else if optGT dias 120 || optGE atraso 5 then "PAR 120"
    else if optGT dias 90 || optGE atraso 4 then "PAR 90"
    else if optGT dias 60 || optGE atraso 3 then "PAR 60"
    else if optGT dias 30 || optGE atraso 2 then "PAR 30"
    else "PAR 1"

/-- Embedding of `paridad(creditos, creditos_pagos, fecha)` for one credit: the whole
pipeline of lines 310-317. -/
def paridadCredit (c : Credit) (pagos : List Payment) (fecha : Date) : String :=
  logicaParidad c.fechaApertura
    (estatus (montoRequerido c (pagosRequeridos c fecha)) (montoPagado c pagos fecha))
    (diasSinPagar c (fechaUltimoPago c pagos fecha) fecha)
    (atrasoPagos c (pagosRequeridos c fecha) (montoPagado c pagos fecha))
    fecha

/-- Embedding of `paridad` over the whole credit table. -/
def paridad (creditos : List Credit) (pagos : List Payment) (fecha : Date) : List String :=
  creditos.map (fun c => paridadCredit c pagos fecha)

/-- Embedding of `saldo(creditos, creditos_pagos, fecha)` for one credit: `saldo_posterior`
of the positionally last qualifying payment, else `saldo_inicial`. -/
def saldoCredit (c : Credit) (pagos : List Payment) (fecha : Date) : ℚ :=
  match (pagosFiltrados c pagos fecha).getLast? with
  | some p => p.saldoPosterior
  | none => c.saldoInicial

/-- Sentinel used by `considerar` for a missing `fecha_cierre`. -/
def fechaMaxima : Date := ⟨2200, 12, 31⟩

/-- The `considerar` membership test for one credit (lines 417-427). -/
def consideraCredit (c : Credit) (fecha : Date) : Bool :=
  dateLE (nextMonthStart c.fechaApertura) (monthStart fecha) &&
    dateLT (monthStart fecha) (c.fechaCierre.getD fechaMaxima)

/-- Embedding of `considerar(creditos, fecha)`: the filtered subset of the credit table. -/
def considerar (creditos : List Credit) (fecha : Date) : List Credit :=
  creditos.filter (fun c => consideraCredit c fecha)

/-- The spec's bucket rule (§4.3), written from the spec's words, for comparison
with `logicaParidad`: a single ordered scan over the threshold table, first match
wins, each row an OR of a day threshold and an arrears threshold, preceded by the
rule that `arrears_count <= 0` together with `payment_status != "Delinquent"`
yields `"Current"` (`"Al Corriente"`). -/
def specAgingBucket (est : Option String) (dias atraso : Option Int) : String :=
  if optLEzero atraso = true ∧ est ≠ some "Atrasado" then "Al Corriente"
  else if optGT dias 360 || optGE atraso 13 then "PAR 360"
  else if optGT dias 270 || optGE atraso 10 then "PAR 270"
  else if optGT dias 180 || optGE atraso 7 then "PAR 180"
  else if optGT dias 150 || optGE atraso 6 then "PAR 150"
  else if optGT dias 120 || optGE atraso 5 then "PAR 120"
  else if optGT dias 90 || optGE atraso 4 then "PAR 90"
  else if optGT dias 60 || optGE atraso 3 then "PAR 60"
  else if optGT dias 30 || optGE atraso 2 then "PAR 30"
  else "PAR 1"

/-- Credit used to refute C3's claim for `arrears_count = 1`:
26 installments of 100 are due, 2548 = 98% of 2600 was paid. -/
def c3credit : Credit := ⟨1, ⟨2020, 1, 1⟩, ⟨2020, 2, 1⟩, 30, 100, 3000, none⟩

/-- A payment five days before the reference date, so `dias_sin_pagar = 0`. -/
def c3pago : Payment := ⟨1, ⟨2022, 3, 10⟩, 2548, 452⟩

def c3fecha : Date := ⟨2022, 3, 15⟩

/-- The scenario credit: opened 2023-01-01, first payment 2023-02-01, term 12,
installment 1000, no payments recorded. -/
def c4credit : Credit := ⟨1, ⟨2023, 1, 1⟩, ⟨2023, 2, 1⟩, 12, 1000, 12000, none⟩

def c4fecha : Date := ⟨2023, 5, 15⟩

/-- Credit used to refute C5: it opens 2023-02-01 but its ledger holds a
payment dated 2023-01-05. -/
def c5credit : Credit := ⟨1, ⟨2023, 2, 1⟩, ⟨2023, 3, 1⟩, 12, 1000, 12000, none⟩

def c5pago : Payment := ⟨1, ⟨2023, 1, 5⟩, 100, 900⟩

/-- Credit used in the C6 witness. -/
def c6credit : Credit := ⟨1, ⟨2023, 1, 1⟩, ⟨2023, 2, 1⟩, 12, 1000, 12000, none⟩

/-- Credit used to refute C7: it closes mid-month, on 2023-03-15. -/
def c7credit : Credit := ⟨1, ⟨2023, 1, 10⟩, ⟨2023, 2, 10⟩, 12, 1000, 12000, some ⟨2023, 3, 15⟩⟩

def c8credit : Credit := ⟨1, ⟨2023, 1, 1⟩, ⟨2023, 2, 1⟩, 12, 1000, 12000, none⟩

/-- A payment whose `id_credito` (99) is absent from the credit table. -/
def c8orphan : Payment := ⟨99, ⟨2023, 2, 10⟩, 500, 700⟩

/-- A credit with a negative `plazo`. -/
def c8negterm : Credit := ⟨2, ⟨2023, 1, 1⟩, ⟨2023, 2, 1⟩, -5, 1000, 12000, none⟩

/-- A credit whose `fecha_cierre` precedes its `fecha_apertura`. -/
def c8badclose : Credit := ⟨3, ⟨2023, 5, 1⟩, ⟨2023, 6, 1⟩, 12, 1000, 12000, some ⟨2023, 2, 1⟩⟩

def c10credit : Credit := ⟨1, ⟨2023, 1, 1⟩, ⟨2023, 2, 1⟩, 12, 100, 1000, none⟩

def c10pagoA : Payment := ⟨1, ⟨2023, 3, 10⟩, 100, 900⟩

def c10pagoB : Payment := ⟨1, ⟨2023, 2, 5⟩, 50, 950⟩

/-! ## Calendar lemmas: the serial order agrees with the calendar order on valid dates -/

set_option maxHeartbeats 1000000

theorem isLeap_iff (y : Nat) :
    isLeap y = true ↔ (y % 4 = 0 ∧ (y % 100 ≠ 0 ∨ y % 400 = 0)) := by
  simp [isLeap]

theorem leapsBefore_succ (y : Nat) (hy : 1 ≤ y) :
    leapsBefore (y + 1) = leapsBefore y + (if isLeap y = true then 1 else 0) := by
  have h := isLeap_iff y
  unfold leapsBefore
  rcases eq_or_ne (isLeap y) true with hl | hl <;> simp [hl] at h ⊢ <;> omega

theorem leapsBefore_mono {y z : Nat} (h : y ≤ z) : leapsBefore y ≤ leapsBefore z := by
  unfold leapsBefore
  omega

theorem doy_le (y m d : Nat) (hm1 : 1 ≤ m) (hm2 : m ≤ 12) (hd : d ≤ daysInMonth y m) :
    daysBeforeMonth y m + d ≤ 365 + (if isLeap y = true then 1 else 0) := by
  interval_cases m <;>
    simp [daysBeforeMonth, daysInMonth] at hd ⊢ <;> split_ifs at hd ⊢ <;> omega

theorem dbm_lt (y m1 m2 d1 : Nat) (h1 : 1 ≤ m1) (h12 : m1 < m2) (h2 : m2 ≤ 12)
    (hd : d1 ≤ daysInMonth y m1) :
    daysBeforeMonth y m1 + d1 < daysBeforeMonth y m2 + 1 := by
  have h1' : m1 ≤ 12 := by omega
  have h2' : 1 ≤ m2 := by omega
  interval_cases m1 <;> interval_cases m2 <;>
    simp [daysBeforeMonth, daysInMonth] at hd ⊢ <;>
    first
    | omega
    | (split_ifs at hd ⊢ <;> omega)

/-- Lexicographic (calendar) strict order implies strict serial order, on valid dates. -/
theorem toDays_lt_of_lex {a b : Date} (ha : a.Valid) (hb : b.Valid)
    (h : a.year < b.year ∨
         (a.year = b.year ∧ (a.month < b.month ∨ (a.month = b.month ∧ a.day < b.day)))) :
    a.toDays < b.toDays := by
  obtain ⟨hay, ham1, ham2, _, had2⟩ := ha
  obtain ⟨hby, hbm1, hbm2, hbd1, hbd2⟩ := hb
  unfold Date.toDays
  rcases h with hy | ⟨hy, hm | ⟨hm, hd⟩⟩
  · have h1 := doy_le a.year a.month a.day ham1 ham2 had2
    have h2 := leapsBefore_succ a.year hay
    have h3 : leapsBefore (a.year + 1) ≤ leapsBefore b.year := leapsBefore_mono (by omega)
    by_cases hl : isLeap a.year = true <;> simp [hl] at h1 h2 <;> omega
  · rw [hy]
    have h1 := dbm_lt b.year a.month b.month a.day ham1 hm hbm2 (hy ▸ had2)
    omega
  · rw [hy, hm]
    omega

/-- Serial order reflects to the calendar order, on valid dates. -/
theorem lex_of_toDays_le {a b : Date} (ha : a.Valid) (hb : b.Valid)
    (h : a.toDays ≤ b.toDays) :
    a.year < b.year ∨
      (a.year = b.year ∧ (a.month < b.month ∨ (a.month = b.month ∧ a.day ≤ b.day))) := by
  by_contra hc
  have hlt : b.year < a.year ∨
      (b.year = a.year ∧ (b.month < a.month ∨ (b.month = a.month ∧ b.day < a.day))) := by
    omega
  exact absurd h (not_le.mpr (toDays_lt_of_lex hb ha hlt))

theorem dateLE_iff {a b : Date} : dateLE a b = true ↔ a.toDays ≤ b.toDays := by
  simp [dateLE]

theorem dateLT_iff {a b : Date} : dateLT a b = true ↔ a.toDays < b.toDays := by
  simp [dateLT]

/-! ## C1: refinement of the two-branch cascade by the spec's single ordered scan -/

/-- C1: for every credit row and reference date with `open_date <= as_of`, the
two-branch cascade of `logica_paridad` computes the same bucket as the spec's
single ordered threshold scan. -/
theorem logicaParidad_eq_specAgingBucket
    (fechaApertura fecha : Date) (est : Option String) (dias atraso : Option Int)
    (h : dateLE fechaApertura fecha = true) :
    logicaParidad fechaApertura est dias atraso fecha = specAgingBucket est dias atraso := by
  have hlt : dateLT fecha fechaApertura = false := by
    rw [dateLE_iff] at h
    simp [dateLT_iff, dateLT]
    omega
  unfold logicaParidad specAgingBucket
  rw [hlt]
  rcases atraso with _ | v
  · simp [optLEzero, optGE]
  · by_cases hv : v ≤ 0
    · have hz : optLEzero (some v) = true := by simp [optLEzero, hv]
      have g13 : optGE (some v) 13 = false := by simp [optGE]; omega
      have g10 : optGE (some v) 10 = false := by simp [optGE]; omega
      have g7 : optGE (some v) 7 = false := by simp [optGE]; omega
      have g6 : optGE (some v) 6 = false := by simp [optGE]; omega
      have g5 : optGE (some v) 5 = false := by simp [optGE]; omega
      have g4 : optGE (some v) 4 = false := by simp [optGE]; omega
      have g3 : optGE (some v) 3 = false := by simp [optGE]; omega
      have g2 : optGE (some v) 2 = false := by simp [optGE]; omega
      by_cases hest : est = some "Atrasado"
      · simp [hz, hest, g13, g10, g7, g6, g5, g4, g3, g2]
      · simp [hz, hest]
    · have hz : optLEzero (some v) = false := by simp [optLEzero, hv]
      simp [hz]

/-- Witness for C1 at a concrete row. -/
theorem logicaParidad_eq_specAgingBucket_witness :
    logicaParidad ⟨2023, 1, 1⟩ (some "Atrasado") (some 100) (some (-1)) ⟨2023, 6, 1⟩ =
      specAgingBucket (some "Atrasado") (some 100) (some (-1)) :=
  logicaParidad_eq_specAgingBucket ⟨2023, 1, 1⟩ ⟨2023, 6, 1⟩
    (some "Atrasado") (some 100) (some (-1)) (by decide)

/-! ## C2: bounds and definedness of `pagos_requeridos` -/

/-- C2: for a credit satisfying the data-model invariants, `pagos_requeridos`
lies in `[0, plazo]` whenever defined, and is undefined iff the reference date
precedes `fecha_apertura`. -/
theorem pagosRequeridos_bounds (c : Credit) (fecha : Date)
    (hterm : 0 ≤ c.plazo)
    (hfp : dateLE c.fechaApertura c.fechaPrimerPago = true) :
    (∀ v, pagosRequeridos c fecha = some v → 0 ≤ v ∧ v ≤ c.plazo) ∧
    (pagosRequeridos c fecha = none ↔ dateLT fecha c.fechaApertura = true) := by
  constructor
  · intro v hv
    unfold pagosRequeridos at hv
    split_ifs at hv
    rw [Option.some_inj] at hv
    omega
  · unfold pagosRequeridos
    split_ifs with hop
    · rw [dateLE_iff] at hop
      simp [dateLT_iff]
      omega
    · rw [dateLE_iff] at hop
      simp [dateLT_iff]
      omega

/-- Witness for C2 at a concrete credit and date. -/
theorem pagosRequeridos_bounds_witness :
    pagosRequeridos ⟨1, ⟨2023, 1, 1⟩, ⟨2023, 2, 1⟩, 12, 1000, 12000, none⟩ ⟨2023, 5, 15⟩ =
        some 4 ∧
      (0 ≤ (4 : Int) ∧ (4 : Int) ≤ 12) := by
  refine ⟨by decide, ?_⟩
  exact (pagosRequeridos_bounds ⟨1, ⟨2023, 1, 1⟩, ⟨2023, 2, 1⟩, 12, 1000, 12000, none⟩
    ⟨2023, 5, 15⟩ (by decide) (by decide)).1 4 (by decide)

/-! ## C3: threshold boundary at arrears 2 and 1 -/

/-- C3 counterexample: a credit the pipeline itself assigns `arrears_count = 1`,
`days_without_payment = 0` and `payment_status = "Al Corriente"` (not
Delinquent), for which the aging bucket is `"PAR 1"`, not `"Current"`
(`"Al Corriente"`) as the claim states. -/
theorem c3_paridad_not_current :
    dateLE c3credit.fechaApertura c3fecha = true ∧
    estatus (montoRequerido c3credit (pagosRequeridos c3credit c3fecha))
        (montoPagado c3credit [c3pago] c3fecha) = some "Al Corriente" ∧
    diasSinPagar c3credit (fechaUltimoPago c3credit [c3pago] c3fecha) c3fecha = some 0 ∧
    atrasoPagos c3credit (pagosRequeridos c3credit c3fecha)
        (montoPagado c3credit [c3pago] c3fecha) = some 1 ∧
    paridadCredit c3credit [c3pago] c3fecha = "PAR 1" ∧
    ("PAR 1" : String) ≠ "Al Corriente" := by
  have hfil : pagosFiltrados c3credit [c3pago] c3fecha = [c3pago] := by
    simp [pagosFiltrados, c3credit, c3pago, c3fecha, dateLE]
    decide
  have hpr : pagosRequeridos c3credit c3fecha = some 26 := by decide
  have hpag : montoPagado c3credit [c3pago] c3fecha = some 2548 := by
    rw [montoPagado, hfil]
    norm_num [c3pago]
  have hest : estatus (montoRequerido c3credit (pagosRequeridos c3credit c3fecha))
      (montoPagado c3credit [c3pago] c3fecha) = some "Al Corriente" := by
    rw [hpr, hpag]
    norm_num [montoRequerido, estatus, c3credit]
  have hdias : diasSinPagar c3credit (fechaUltimoPago c3credit [c3pago] c3fecha) c3fecha =
      some 0 := by
    rw [fechaUltimoPago, hfil]
    decide
  have hrhe : roundHalfEven ((2548 : ℚ) / 100 + epsRound) = 25 := by
    have hf : ⌊(2548 : ℚ) / 100 + epsRound⌋ = 25 := by
      rw [epsRound]
      norm_num
    rw [roundHalfEven, hf]
    norm_num [epsRound]
  have hatr : atrasoPagos c3credit (pagosRequeridos c3credit c3fecha)
      (montoPagado c3credit [c3pago] c3fecha) = some 1 := by
    rw [hpr, hpag, atrasoPagos]
    show some (26 - roundHalfEven ((2548 : ℚ) / c3credit.cuotaMensual + epsRound)) = some 1
    have : c3credit.cuotaMensual = 100 := rfl
    rw [this, hrhe]
    norm_num
  refine ⟨by decide, hest, hdias, hatr, ?_, by decide⟩
  rw [paridadCredit, hest, hdias, hatr]
  decide

/-- C3 (amended): for every opened credit row, `arrears_count = 2` with
`days_without_payment = 0` classifies as `"PAR 30"`, and `arrears_count = 1`
with `days_without_payment = 0` classifies as `"PAR 1"` regardless of the
payment status. -/
theorem logicaParidad_threshold_boundary
    (fechaApertura fecha : Date) (est : Option String)
    (h : dateLE fechaApertura fecha = true) :
    logicaParidad fechaApertura est (some 0) (some 2) fecha = "PAR 30" ∧
    logicaParidad fechaApertura est (some 0) (some 1) fecha = "PAR 1" := by
  have hlt : dateLT fecha fechaApertura = false := by
    rw [dateLE_iff] at h
    simp [dateLT]
    omega
  unfold logicaParidad
  rw [hlt]
  simp [optLEzero, optGT, optGE]

/-- Witness for the amended C3 at a concrete row. -/
theorem logicaParidad_threshold_boundary_witness :
    logicaParidad ⟨2023, 1, 1⟩ (some "Atrasado") (some 0) (some 2) ⟨2023, 6, 1⟩ = "PAR 30" ∧
    logicaParidad ⟨2023, 1, 1⟩ (some "Atrasado") (some 0) (some 1) ⟨2023, 6, 1⟩ = "PAR 1" :=
  logicaParidad_threshold_boundary ⟨2023, 1, 1⟩ ⟨2023, 6, 1⟩ (some "Atrasado") (by decide)

/-! ## C4: the no-payment scenario of §8 -/

/-- C4 counterexample: in the scenario, `dias_sin_pagar` is
`(2023-05-15 - 2023-01-01).days = 134`, not 135 as the claim states. -/
theorem c4_dias_is_134 :
    diasSinPagar c4credit (fechaUltimoPago c4credit [] c4fecha) c4fecha = some 134 ∧
    diasSinPagar c4credit (fechaUltimoPago c4credit [] c4fecha) c4fecha ≠ some 135 := by
  constructor <;> decide

/-- C4 (amended): the scenario yields `pagos_requeridos = 4`,
`monto_requerido = 4000`, `monto_pagado = 0`, `estatus = "Atrasado"`
(Delinquent), `dias_sin_pagar = 134`, `atraso_pagos = 4` and bucket
`"PAR 120"`. -/
theorem c4_scenario :
    pagosRequeridos c4credit c4fecha = some 4 ∧
    montoRequerido c4credit (pagosRequeridos c4credit c4fecha) = some 4000 ∧
    montoPagado c4credit [] c4fecha = some 0 ∧
    estatus (montoRequerido c4credit (pagosRequeridos c4credit c4fecha))
        (montoPagado c4credit [] c4fecha) = some "Atrasado" ∧
    diasSinPagar c4credit (fechaUltimoPago c4credit [] c4fecha) c4fecha = some 134 ∧
    atrasoPagos c4credit (pagosRequeridos c4credit c4fecha)
        (montoPagado c4credit [] c4fecha) = some 4 ∧
    paridadCredit c4credit [] c4fecha = "PAR 120" := by
  have hpr : pagosRequeridos c4credit c4fecha = some 4 := by decide
  have hpag : montoPagado c4credit [] c4fecha = some 0 := by decide
  have hreq : montoRequerido c4credit (pagosRequeridos c4credit c4fecha) = some 4000 := by
    rw [hpr]
    norm_num [montoRequerido, c4credit]
  have hest : estatus (montoRequerido c4credit (pagosRequeridos c4credit c4fecha))
      (montoPagado c4credit [] c4fecha) = some "Atrasado" := by
    rw [hreq, hpag]
    norm_num [estatus]
  have hdias : diasSinPagar c4credit (fechaUltimoPago c4credit [] c4fecha) c4fecha =
      some 134 := by decide
  have hrhe : roundHalfEven ((0 : ℚ) / 1000 + epsRound) = 0 := by
    have hf : ⌊(0 : ℚ) / 1000 + epsRound⌋ = 0 := by
      rw [epsRound]
      norm_num
    rw [roundHalfEven, hf]
    norm_num [epsRound]
  have hatr : atrasoPagos c4credit (pagosRequeridos c4credit c4fecha)
      (montoPagado c4credit [] c4fecha) = some 4 := by
    rw [hpr, hpag, atrasoPagos]
    show some (4 - roundHalfEven ((0 : ℚ) / c4credit.cuotaMensual + epsRound)) = some 4
    have hcuota : c4credit.cuotaMensual = 1000 := rfl
    rw [hcuota, hrhe]
    norm_num
  refine ⟨hpr, hreq, hpag, hest, hdias, hatr, ?_⟩
  rw [paridadCredit, hest, hdias, hatr]
  decide

/-! ## C5: definedness of `monto_pagado` -/

/-- C5 counterexample: at `as_of` 2023-01-10 the credit has not yet opened,
yet the ledger contains a qualifying payment, and `monto_pagado` returns the
sum 100 rather than being undefined: the final
`.where((fecha < apertura) | notnull, 0)` keeps any non-null sum. -/
theorem c5_pagado_defined_before_opening :
    dateLT (⟨2023, 1, 10⟩ : Date) c5credit.fechaApertura = true ∧
    dateLE c5pago.fechaPago ⟨2023, 1, 10⟩ = true ∧
    montoPagado c5credit [c5pago] ⟨2023, 1, 10⟩ = some 100 ∧
    montoPagado c5credit [c5pago] ⟨2023, 1, 10⟩ ≠ none := by
  have hfil : pagosFiltrados c5credit [c5pago] ⟨2023, 1, 10⟩ = [c5pago] := by
    simp [pagosFiltrados, c5credit, c5pago, dateLE]
    decide
  have hpag : montoPagado c5credit [c5pago] ⟨2023, 1, 10⟩ = some 100 := by
    rw [montoPagado, hfil]
    norm_num [c5pago]
  refine ⟨by decide, by decide, hpag, ?_⟩
  rw [hpag]
  simp

/-- C5 (amended): `monto_pagado` is undefined iff the credit has no qualifying
payment AND `as_of < open_date`; it is 0 when the credit has opened and has no
qualifying payment; and it is the sum of the qualifying payments whenever at
least one exists, even if `as_of < open_date`. -/
theorem montoPagado_characterization (c : Credit) (pagos : List Payment) (fecha : Date) :
    (montoPagado c pagos fecha = none ↔
      (pagosFiltrados c pagos fecha = [] ∧ dateLT fecha c.fechaApertura = true)) ∧
    (pagosFiltrados c pagos fecha = [] → dateLE c.fechaApertura fecha = true →
      montoPagado c pagos fecha = some 0) ∧
    (pagosFiltrados c pagos fecha ≠ [] →
      montoPagado c pagos fecha =
        some ((pagosFiltrados c pagos fecha).map Payment.montoPago).sum) := by
  refine ⟨?_, ?_, ?_⟩
  · rw [montoPagado]
    rcases hfil : pagosFiltrados c pagos fecha with _ | ⟨p, ps⟩
    · split_ifs with hlt
      · simp [hlt]
      · simp [hlt]
    · simp
  · intro hfil hop
    rw [montoPagado, hfil]
    have hlt : dateLT fecha c.fechaApertura = false := by
      rw [dateLE_iff] at hop
      simp [dateLT]
      omega
    rw [hlt]
    simp
  · intro hfil
    rw [montoPagado]
    rcases hfe : pagosFiltrados c pagos fecha with _ | ⟨p, ps⟩
    · exact absurd hfe hfil
    · simp

/-- Witness for the amended C5: an opened credit with an empty ledger has
`monto_pagado = 0`. -/
theorem montoPagado_characterization_witness :
    montoPagado c4credit [] c4fecha = some 0 :=
  (montoPagado_characterization c4credit [] c4fecha).2.1 rfl (by decide)

/-! ## C6: monotonicity in the reference date while payments are fixed -/

/-- The month-difference formula of `pagos_requeridos` is non-decreasing in the
reference date, over valid calendar dates. -/
theorem mesesTranscurridos_mono (c : Credit) {d1 d2 : Date}
    (h1 : d1.Valid) (h2 : d2.Valid) (h : dateLE d1 d2 = true) :
    mesesTranscurridos c d1 ≤ mesesTranscurridos c d2 := by
  have hle : d1.toDays ≤ d2.toDays := dateLE_iff.mp h
  have hlex := lex_of_toDays_le h1 h2 hle
  obtain ⟨-, -, hm2a, -, had2⟩ := h1
  obtain ⟨-, hm1b, -, -, hbd2⟩ := h2
  unfold mesesTranscurridos
  simp only [isMonthEnd, beq_eq_false_iff_ne, ne_eq]
  rcases hlex with hy | ⟨hy, hm | ⟨hm, hd⟩⟩
  · split_ifs <;> omega
  · split_ifs <;> omega
  · have hdim : daysInMonth d1.year d1.month = daysInMonth d2.year d2.month := by
      rw [hy, hm]
    split_ifs <;> omega

/-- Function `pagos_requeridos` is non-decreasing in the reference date. -/
theorem pagosRequeridos_mono (c : Credit) {d1 d2 : Date}
    (h1 : d1.Valid) (h2 : d2.Valid) (h : dateLE d1 d2 = true)
    {v1 v2 : Int} (hv1 : pagosRequeridos c d1 = some v1)
    (hv2 : pagosRequeridos c d2 = some v2) : v1 ≤ v2 := by
  have hmono := mesesTranscurridos_mono c h1 h2 h
  unfold pagosRequeridos at hv1 hv2
  split_ifs at hv1 hv2
  rw [Option.some_inj] at hv1 hv2
  omega

/-- If no payment of the credit falls in `(d1, d2]`, the qualifying ledger rows
at `d1` and at `d2` coincide. -/
theorem pagosFiltrados_congr (c : Credit) (pagos : List Payment) {d1 d2 : Date}
    (h : dateLE d1 d2 = true)
    (hnp : ∀ p ∈ pagos, p.idCredito = c.idCredito →
      ¬(dateLT d1 p.fechaPago = true ∧ dateLE p.fechaPago d2 = true)) :
    pagosFiltrados c pagos d1 = pagosFiltrados c pagos d2 := by
  have hle : d1.toDays ≤ d2.toDays := dateLE_iff.mp h
  unfold pagosFiltrados
  apply List.filter_congr
  intro p hp
  by_cases hid : (p.idCredito == c.idCredito) = true
  · simp only [hid, Bool.true_and]
    have hid' : p.idCredito = c.idCredito := by simpa using hid
    by_cases hpd : p.fechaPago.toDays ≤ d1.toDays
    · have e1 : dateLE p.fechaPago d1 = true := dateLE_iff.mpr hpd
      have e2 : dateLE p.fechaPago d2 = true := dateLE_iff.mpr (le_trans hpd hle)
      rw [e1, e2]
    · have e1 : dateLE p.fechaPago d1 = false := by
        simp [dateLE]
        omega
      have e2 : dateLE p.fechaPago d2 = false := by
        have hgt : dateLT d1 p.fechaPago = true := by
          simp [dateLT]
          omega
        rcases Bool.eq_false_or_eq_true (dateLE p.fechaPago d2) with ht | hf
        · exact absurd ⟨hgt, ht⟩ (hnp p hp hid')
        · exact hf
      rw [e1, e2]
  · simp only [Bool.not_eq_true] at hid
    rw [hid]
    simp

/-- Function `monto_pagado` is unchanged between `d1` and `d2` when the qualifying rows
coincide and the credit has opened by `d1`. -/
theorem montoPagado_congr (c : Credit) (pagos : List Payment) {d1 d2 : Date}
    (hle : dateLE d1 d2 = true)
    (hfil : pagosFiltrados c pagos d1 = pagosFiltrados c pagos d2)
    (hop : dateLE c.fechaApertura d1 = true) :
    montoPagado c pagos d1 = montoPagado c pagos d2 := by
  have h1 : d1.toDays ≤ d2.toDays := dateLE_iff.mp hle
  have hap : c.fechaApertura.toDays ≤ d1.toDays := dateLE_iff.mp hop
  unfold montoPagado
  rw [hfil]
  rcases pagosFiltrados c pagos d2 with _ | ⟨p, ps⟩
  · have e1 : dateLT d1 c.fechaApertura = false := by
      simp [dateLT]
      omega
    have e2 : dateLT d2 c.fechaApertura = false := by
      simp [dateLT]
      omega
    rw [e1, e2]
  · rfl

/-- C6: for a fixed credit and fixed ledger, if no payment of the credit falls
in `(d1, d2]`, then both `dias_sin_pagar` and `atraso_pagos` at `d2` are at
least their values at `d1`, whenever both are defined. -/
theorem c6_monotonicity (c : Credit) (pagos : List Payment) (d1 d2 : Date)
    (h1 : d1.Valid) (h2 : d2.Valid) (h : dateLE d1 d2 = true)
    (hnp : ∀ p ∈ pagos, p.idCredito = c.idCredito →
      ¬(dateLT d1 p.fechaPago = true ∧ dateLE p.fechaPago d2 = true)) :
    (∀ x1 x2, diasSinPagar c (fechaUltimoPago c pagos d1) d1 = some x1 →
      diasSinPagar c (fechaUltimoPago c pagos d2) d2 = some x2 → x1 ≤ x2) ∧
    (∀ a1 a2, atrasoPagos c (pagosRequeridos c d1) (montoPagado c pagos d1) = some a1 →
      atrasoPagos c (pagosRequeridos c d2) (montoPagado c pagos d2) = some a2 → a1 ≤ a2) := by
  have hfil := pagosFiltrados_congr c pagos h hnp
  have hle : d1.toDays ≤ d2.toDays := dateLE_iff.mp h
  constructor
  · intro x1 x2 hx1 hx2
    rw [fechaUltimoPago, hfil] at hx1
    rw [fechaUltimoPago] at hx2
    rcases hg : (pagosFiltrados c pagos d2).getLast? with _ | p <;> rw [hg] at hx1 hx2
    · simp only [Option.map_none'] at hx1 hx2
      unfold diasSinPagar at hx1 hx2
      split_ifs at hx1 hx2
      rw [Option.some_inj] at hx1 hx2
      omega
    · simp only [Option.map_some'] at hx1 hx2
      unfold diasSinPagar at hx1 hx2
      rw [Option.some_inj] at hx1 hx2
      omega
  · intro a1 a2 ha1 ha2
    rcases hp1 : pagosRequeridos c d1 with _ | n1 <;> rw [hp1] at ha1
    · cases ha1
    rcases hq1 : montoPagado c pagos d1 with _ | q1 <;> rw [hq1] at ha1
    · cases ha1
    rcases hp2 : pagosRequeridos c d2 with _ | n2 <;> rw [hp2] at ha2
    · cases ha2
    rcases hq2 : montoPagado c pagos d2 with _ | q2 <;> rw [hq2] at ha2
    · cases ha2
    have hop : dateLE c.fechaApertura d1 = true := by
      unfold pagosRequeridos at hp1
      split_ifs at hp1 with hcond
      · exact hcond
    have hqeq : q1 = q2 := by
      have := montoPagado_congr c pagos h hfil hop
      rw [hq1, hq2] at this
      exact Option.some_inj.mp this
    have hn := pagosRequeridos_mono c h1 h2 h hp1 hp2
    unfold atrasoPagos at ha1 ha2
    rw [Option.some_inj] at ha1 ha2
    rw [hqeq] at ha1
    omega

/-- Witness for C6 at a concrete credit, empty ledger and two concrete dates. -/
theorem c6_monotonicity_witness :
    diasSinPagar c6credit (fechaUltimoPago c6credit [] ⟨2023, 3, 10⟩) ⟨2023, 3, 10⟩ =
        some 68 ∧
    diasSinPagar c6credit (fechaUltimoPago c6credit [] ⟨2023, 4, 20⟩) ⟨2023, 4, 20⟩ =
        some 109 ∧
    (68 : Int) ≤ 109 :=
  ⟨by decide, by decide,
    (c6_monotonicity c6credit [] ⟨2023, 3, 10⟩ ⟨2023, 4, 20⟩ (by decide) (by decide)
      (by decide) (by simp)).1 68 109 (by decide) (by decide)⟩

/-! ## C7 and C9: the portfolio window filter `considerar` -/

/-- C7 counterexample: a credit whose `close_date` (2023-03-15) falls inside
reporting month 2023-03 is still included by `considerar` for that month
(reference date 2023-03-20), because the code compares the month start against
the full `close_date`, not against the close month.  This contradicts the
claim that a closed credit is excluded from the month its `close_date` falls
in for any day-of-month of `close_date`. -/
theorem c7_close_month_included :
    c7credit.fechaCierre = some ⟨2023, 3, 15⟩ ∧
    monthStart ⟨2023, 3, 20⟩ = monthStart ⟨2023, 3, 15⟩ ∧
    consideraCredit c7credit ⟨2023, 3, 20⟩ = true ∧
    considerar [c7credit] ⟨2023, 3, 20⟩ = [c7credit] := by
  refine ⟨rfl, rfl, by decide, ?_⟩
  have h : consideraCredit c7credit ⟨2023, 3, 20⟩ = true := by decide
  simp [considerar, h]

/-- C7 (amended): `considerar` includes a credit for the reporting month of
`fecha` iff the start of the month after `fecha_apertura` is `<=` the start of
`fecha`'s month and that month start is strictly before `fecha_cierre`
(2200-12-31 when absent); consequently a credit with a `close_date` is excluded
from a reporting month exactly when that month's start is on or after
`close_date`, which covers the close month itself only when `close_date` is
the first day of its month. -/
theorem consideraCredit_characterization (c : Credit) (fecha : Date) (cd : Date)
    (hcd : c.fechaCierre = some cd) :
    (consideraCredit c fecha = true ↔
      (dateLE (nextMonthStart c.fechaApertura) (monthStart fecha) = true ∧
        dateLT (monthStart fecha) cd = true)) ∧
    (dateLE cd (monthStart fecha) = true → consideraCredit c fecha = false) := by
  constructor
  · rw [consideraCredit, hcd]
    simp
  · intro hle
    rw [consideraCredit, hcd]
    have hlt : dateLT (monthStart fecha) cd = false := by
      rw [dateLE_iff] at hle
      simp [dateLT]
      omega
    simp [hlt]

/-- Witness for the amended C7: the spec's own scenario — a credit closed on
2023-03-01 is excluded from the reporting month 2023-03. -/
theorem consideraCredit_characterization_witness :
    consideraCredit ⟨1, ⟨2023, 1, 10⟩, ⟨2023, 2, 10⟩, 12, 1000, 12000, some ⟨2023, 3, 1⟩⟩
      ⟨2023, 3, 20⟩ = false :=
  (consideraCredit_characterization
    ⟨1, ⟨2023, 1, 10⟩, ⟨2023, 2, 10⟩, 12, 1000, 12000, some ⟨2023, 3, 1⟩⟩
    ⟨2023, 3, 20⟩ ⟨2023, 3, 1⟩ rfl).2 (by decide)

/-- C9: with no `fecha_cierre` the code substitutes the sentinel 2200-12-31:
the credit is included iff the monthly-window condition holds and the month
start is strictly before 2200-12-31, and it is excluded from any reporting
month starting on or after 2200-12-31 even though it was never closed. -/
theorem considerar_sentinel (c : Credit) (fecha : Date)
    (hcd : c.fechaCierre = none) :
    (consideraCredit c fecha = true ↔
      (dateLE (nextMonthStart c.fechaApertura) (monthStart fecha) = true ∧
        dateLT (monthStart fecha) fechaMaxima = true)) ∧
    (dateLE fechaMaxima (monthStart fecha) = true → consideraCredit c fecha = false) := by
  constructor
  · rw [consideraCredit, hcd]
    simp
  · intro hle
    rw [consideraCredit, hcd]
    have hlt : dateLT (monthStart fecha) fechaMaxima = false := by
      rw [dateLE_iff] at hle
      simp [dateLT]
      omega
    simp [hlt]

/-- Witness for C9: a never-closed credit opened in 2000 is excluded from the
reporting month 2201-02 because its start lies after the sentinel. -/
theorem considerar_sentinel_witness :
    consideraCredit ⟨1, ⟨2000, 1, 15⟩, ⟨2000, 2, 15⟩, 12, 1000, 12000, none⟩
      ⟨2201, 2, 5⟩ = false :=
  (considerar_sentinel ⟨1, ⟨2000, 1, 15⟩, ⟨2000, 2, 15⟩, 12, 1000, 12000, none⟩
    ⟨2201, 2, 5⟩ rfl).2 (by decide)

/-! ## C8: absence of boundary validation -/

/-- C8: the entry points perform no input validation.  An orphan payment is
silently dropped (`paridad` and `saldo` return the same normal output as with
no ledger at all), a negative `plazo` flows through `clip` and yields a
negative required-installment count, and a `fecha_cierre` earlier than
`fecha_apertura` is silently filtered, none of them signalled as a failure. -/
theorem c8_no_validation :
    paridad [c8credit] [c8orphan] ⟨2023, 3, 15⟩ = paridad [c8credit] [] ⟨2023, 3, 15⟩ ∧
    paridad [c8credit] [c8orphan] ⟨2023, 3, 15⟩ = ["PAR 60"] ∧
    saldoCredit c8credit [c8orphan] ⟨2023, 3, 15⟩ = c8credit.saldoInicial ∧
    pagosRequeridos c8negterm ⟨2023, 3, 15⟩ = some (-5) ∧
    considerar [c8badclose] ⟨2023, 6, 15⟩ = [] := by
  have hfil : pagosFiltrados c8credit [c8orphan] ⟨2023, 3, 15⟩ = [] := rfl
  have hm : montoPagado c8credit [c8orphan] ⟨2023, 3, 15⟩ =
      montoPagado c8credit [] ⟨2023, 3, 15⟩ := by
    unfold montoPagado
    rw [hfil]
    rfl
  have hfu : fechaUltimoPago c8credit [c8orphan] ⟨2023, 3, 15⟩ =
      fechaUltimoPago c8credit [] ⟨2023, 3, 15⟩ := by
    unfold fechaUltimoPago
    rw [hfil]
    rfl
  have heq : paridad [c8credit] [c8orphan] ⟨2023, 3, 15⟩ =
      paridad [c8credit] [] ⟨2023, 3, 15⟩ := by
    unfold paridad
    simp only [List.map]
    unfold paridadCredit
    rw [hm, hfu]
  have hpr : pagosRequeridos c8credit ⟨2023, 3, 15⟩ = some 2 := by decide
  have hpag : montoPagado c8credit [] ⟨2023, 3, 15⟩ = some 0 := by decide
  have hest : estatus (montoRequerido c8credit (pagosRequeridos c8credit ⟨2023, 3, 15⟩))
      (montoPagado c8credit [] ⟨2023, 3, 15⟩) = some "Atrasado" := by
    rw [hpr, hpag]
    norm_num [montoRequerido, estatus, c8credit]
  have hdias : diasSinPagar c8credit (fechaUltimoPago c8credit [] ⟨2023, 3, 15⟩)
      ⟨2023, 3, 15⟩ = some 73 := by decide
  have hrhe : roundHalfEven ((0 : ℚ) / 1000 + epsRound) = 0 := by
    have hf : ⌊(0 : ℚ) / 1000 + epsRound⌋ = 0 := by
      rw [epsRound]
      norm_num
    rw [roundHalfEven, hf]
    norm_num [epsRound]
  have hatr : atrasoPagos c8credit (pagosRequeridos c8credit ⟨2023, 3, 15⟩)
      (montoPagado c8credit [] ⟨2023, 3, 15⟩) = some 2 := by
    rw [hpr, hpag, atrasoPagos]
    show some (2 - roundHalfEven ((0 : ℚ) / c8credit.cuotaMensual + epsRound)) = some 2
    have hcuota : c8credit.cuotaMensual = 1000 := rfl
    rw [hcuota, hrhe]
    norm_num
  have hval : paridad [c8credit] [] ⟨2023, 3, 15⟩ = ["PAR 60"] := by
    unfold paridad
    simp only [List.map]
    rw [paridadCredit, hest, hdias, hatr]
    decide
  have hclose : consideraCredit c8badclose ⟨2023, 6, 15⟩ = false := by decide
  refine ⟨heq, heq.trans hval, rfl, by decide, ?_⟩
  simp [considerar, hclose]

/-! ## C10: `.last()` is positional, not a maximum -/

/-- An element delivered by `getLast?` belongs to the list. -/
theorem getLast_isMem {α : Type} : ∀ (l : List α) (y : α), l.getLast? = some y → y ∈ l := by
  intro l
  induction l with
  | nil => intro y hy; cases hy
  | cons a t ih =>
    intro y hy
    rcases t with _ | ⟨b, t'⟩
    · simp at hy
      simp [hy]
    · rw [List.getLast?_cons_cons] at hy
      exact List.mem_cons_of_mem a (ih y hy)

/-- In a pairwise-related list, every element relates to the last one. -/
theorem pairwise_rel_getLast {α : Type} {R : α → α → Prop} :
    ∀ (l : List α), l.Pairwise R → ∀ x ∈ l, ∀ y, l.getLast? = some y → x = y ∨ R x y := by
  intro l
  induction l with
  | nil => intro _ x hx; cases hx
  | cons a t ih =>
    intro hp x hx y hy
    rcases t with _ | ⟨b, t'⟩
    · simp at hy hx
      left
      rw [hx, hy]
    · rw [List.getLast?_cons_cons] at hy
      rcases List.mem_cons.mp hx with rfl | hx'
      · right
        exact (List.pairwise_cons.mp hp).1 y (getLast_isMem _ y hy)
      · exact ih (List.pairwise_cons.mp hp).2 x hx' y hy

/-- C10: `fecha_ultimo_pago` returns the positionally last qualifying row.
When the credit's rows appear in ascending `fecha_pago` order it therefore is
the chronologically latest qualifying payment date (first conjunct); and
permuting a credit's ledger rows can change `fecha_ultimo_pago`, the balance
and `dias_sin_pagar` while leaving `monto_pagado` unchanged (second conjunct:
the two orderings `[A, B]` and `[B, A]` of the same two payments). -/
theorem fechaUltimoPago_positional (c : Credit) (pagos : List Payment) (fecha : Date)
    (hsort : pagos.Pairwise (fun p q => p.idCredito = c.idCredito →
      q.idCredito = c.idCredito → dateLE p.fechaPago q.fechaPago = true)) :
    (∀ d, fechaUltimoPago c pagos fecha = some d →
      (∃ q ∈ pagosFiltrados c pagos fecha, q.fechaPago = d) ∧
      (∀ p ∈ pagos, p.idCredito = c.idCredito → dateLE p.fechaPago fecha = true →
        dateLE p.fechaPago d = true)) ∧
    (fechaUltimoPago c10credit [c10pagoA, c10pagoB] ⟨2023, 4, 1⟩ = some ⟨2023, 2, 5⟩ ∧
      fechaUltimoPago c10credit [c10pagoB, c10pagoA] ⟨2023, 4, 1⟩ = some ⟨2023, 3, 10⟩ ∧
      saldoCredit c10credit [c10pagoA, c10pagoB] ⟨2023, 4, 1⟩ = 950 ∧
      saldoCredit c10credit [c10pagoB, c10pagoA] ⟨2023, 4, 1⟩ = 900 ∧
      diasSinPagar c10credit (fechaUltimoPago c10credit [c10pagoA, c10pagoB] ⟨2023, 4, 1⟩)
          ⟨2023, 4, 1⟩ = some 25 ∧
      diasSinPagar c10credit (fechaUltimoPago c10credit [c10pagoB, c10pagoA] ⟨2023, 4, 1⟩)
          ⟨2023, 4, 1⟩ = some 0 ∧
      montoPagado c10credit [c10pagoA, c10pagoB] ⟨2023, 4, 1⟩ =
        montoPagado c10credit [c10pagoB, c10pagoA] ⟨2023, 4, 1⟩) := by
  constructor
  · intro d hd
    rw [fechaUltimoPago] at hd
    rcases Option.map_eq_some'.mp hd with ⟨q, hq, hqd⟩
    have hqmem := getLast_isMem _ q hq
    have hqcond := (List.mem_filter.mp hqmem).2
    have hqid : q.idCredito = c.idCredito := by
      have := (Bool.and_eq_true _ _).mp hqcond
      simpa using this.1
    refine ⟨⟨q, hqmem, hqd⟩, ?_⟩
    intro p hp hpid hple
    have hpmem : p ∈ pagosFiltrados c pagos fecha := by
      rw [pagosFiltrados]
      refine List.mem_filter.mpr ⟨hp, ?_⟩
      simp [hpid, hple]
    have hpair : (pagosFiltrados c pagos fecha).Pairwise
        (fun p q => p.idCredito = c.idCredito → q.idCredito = c.idCredito →
          dateLE p.fechaPago q.fechaPago = true) :=
      List.Pairwise.filter _ hsort
    rcases pairwise_rel_getLast _ hpair p hpmem q hq with heq | hrel
    · rw [heq, hqd]
      simp [dateLE]
    · rw [← hqd]
      exact hrel hpid hqid
  · have hfilAB : pagosFiltrados c10credit [c10pagoA, c10pagoB] ⟨2023, 4, 1⟩ =
        [c10pagoA, c10pagoB] := rfl
    have hfilBA : pagosFiltrados c10credit [c10pagoB, c10pagoA] ⟨2023, 4, 1⟩ =
        [c10pagoB, c10pagoA] := rfl
    have hmAB : montoPagado c10credit [c10pagoA, c10pagoB] ⟨2023, 4, 1⟩ = some 150 := by
      rw [montoPagado, hfilAB]
      norm_num [c10pagoA, c10pagoB]
    have hmBA : montoPagado c10credit [c10pagoB, c10pagoA] ⟨2023, 4, 1⟩ = some 150 := by
      rw [montoPagado, hfilBA]
      norm_num [c10pagoA, c10pagoB]
    refine ⟨by decide, by decide, rfl, rfl, by decide, by decide, hmAB.trans hmBA.symm⟩

/-- Witness for C10: with the ledger rows in ascending order, the reported
last-payment date dominates every qualifying payment date. -/
theorem fechaUltimoPago_positional_witness :
    dateLE c10pagoB.fechaPago ⟨2023, 3, 10⟩ = true :=
  ((fechaUltimoPago_positional c10credit [c10pagoB, c10pagoA] ⟨2023, 4, 1⟩
      (by decide)).1 ⟨2023, 3, 10⟩ (by decide)).2 c10pagoB (by simp) rfl (by decide)
